import Mathlib

/-!
Shallow embedding of the crash-handler lifecycle and signal-context capture
subsystem of the minidump-writer-ios example repository, together with proofs
of the specified properties.

Source files embedded:
- src/minidump-handler/src/lib.rs  (configuration store, installer, trampoline,
  filename policy, fault triggers)
- src/RustLib/src/lib.rs           (FFI boundary, path-based handler variant)
- src/rust/minidump-flutter-bridge/src/api/mod.rs (debug-gated trigger surface)

External effects (filesystem creation, sigaction, the snapshot-writer delegate,
the wall clock) are modelled as explicit environment parameters; process-global
mutable state is threaded explicitly.
-/

set_option maxHeartbeats 1000000

namespace MinidumpVerify

/-! Signal numbers of the Darwin (iOS/macOS) libc, the target platform. -/

def SIGILL : Int := 4
def SIGTRAP : Int := 5
def SIGABRT : Int := 6
def SIGFPE : Int := 8
def SIGBUS : Int := 10
def SIGSEGV : Int := 11

/-- Darwin value of the SA_SIGINFO sigaction flag (extended signal info). -/
def SA_SIGINFO : Nat := 64

/-- Embeds struct HandlerConfig (src/minidump-handler/src/lib.rs, lines 12-21).
The pre_dump_callback field is Option of a token recording whether a callback
function pointer is present; the callback itself has no modelled effect other
than being invoked. -/
structure HandlerConfig where
  dump_directory : String
  filename_prefix : String
  append_timestamp : Bool
  pre_dump_callback : Option Unit
deriving DecidableEq

/-- Embeds struct SignalInfo (src/minidump-handler/src/lib.rs, lines 36-40). -/
structure SignalInfo where
  signal : Int
  code : Int
  address : Nat
deriving DecidableEq

/-- Embeds SignalInfo::signal_name (src/minidump-handler/src/lib.rs, lines
61-71): maps the signal number to its name, UNKNOWN for anything else. -/
def signal_name (sig : Int) : String :=
  if sig = SIGSEGV then "SIGSEGV"
  else if sig = SIGBUS then "SIGBUS"
  else if sig = SIGABRT then "SIGABRT"
  else if sig = SIGFPE then "SIGFPE"
  else if sig = SIGILL then "SIGILL"
  else if sig = SIGTRAP then "SIGTRAP"
  else "UNKNOWN"

/-- Embeds str::to_lowercase as applied to the ASCII signal names: lowercase
every character. -/
def strToLower (s : String) : String :=
  String.mk (s.data.map Char.toLower)

/-- Embeds generate_filename (src/minidump-handler/src/lib.rs, lines 143-156).
The wall-clock read (SystemTime::now, seconds since epoch, 0 on clock error)
is passed in as the parameter now. -/
def generate_filename (config : HandlerConfig) (si : SignalInfo) (now : Nat) : String :=
  let filename := HandlerConfig.filename_prefix config ++ "_" ++ strToLower (signal_name si.signal)
  let filename :=
    if HandlerConfig.append_timestamp config then filename ++ "_" ++ toString now
    else filename
  filename ++ ".dmp"

/-- Environment of externally decided outcomes for the minidump-handler crate:
whether fs::create_dir_all succeeds on a path not yet created, and whether
sigaction succeeds for a signal. -/
structure Env where
  dir_creatable : String → Bool
  sigaction_ok : Int → Bool

/-- Process-global state of the minidump-handler crate: the HANDLER_CONFIG
once-cell (line 8), the set of directories created so far, and the sigaction
registrations made so far, each recorded as (signal, sa_flags) in order. -/
structure HandlerState where
  handler_config : Option HandlerConfig
  created_dirs : List String
  registrations : List (Int × Nat)
deriving DecidableEq

/-- Models fs::create_dir_all success: creating an already-existing directory
succeeds; otherwise the environment decides. -/
def dirCreateOk (env : Env) (s : HandlerState) (dir : String) : Bool :=
  env.dir_creatable dir || s.created_dirs.contains dir

/-- Error outcomes of init_crash_handler, one per anyhow error site:
directoryCreateFailed for the create_dir_all context (line 78),
alreadyInitialized for the OnceCell::set failure (line 83),
signalInstallFailed for a sigaction failure (lines 102-105). -/
inductive InitError where
  | directoryCreateFailed (dir : String)
  | alreadyInitialized
  | signalInstallFailed (sig : Int)
deriving DecidableEq

/-- The fixed signal list of install_signal_handlers
(src/minidump-handler/src/lib.rs, line 98) and of
minidump_writer_ios_install_handlers (src/RustLib/src/lib.rs, line 240). -/
def handledSignals : List Int := [SIGSEGV, SIGBUS, SIGABRT, SIGFPE, SIGILL, SIGTRAP]

/-- Embeds the sigaction loop of install_signal_handlers (lines 100-107):
registers signals in order, stopping at the first failure; registrations
already made are kept (sigaction is process-global, no rollback). -/
def registerSignals (env : Env) : List Int → HandlerState → (Except InitError Unit) × HandlerState
  | [], s => (Except.ok (), s)
  | sig :: rest, s =>
    if env.sigaction_ok sig then
      registerSignals env rest
        { s with registrations := s.registrations ++ [(sig, SA_SIGINFO)] }
    else (Except.error (InitError.signalInstallFailed sig), s)

/-- Embeds install_signal_handlers (src/minidump-handler/src/lib.rs,
lines 92-111). -/
def install_signal_handlers (env : Env) (s : HandlerState) :
    (Except InitError Unit) × HandlerState :=
  registerSignals env handledSignals s

/-- Embeds init_crash_handler (src/minidump-handler/src/lib.rs, lines 75-89):
create the dump directory recursively, then store the configuration in the
once-cell (failing if already set), then install the signal handlers. -/
def init_crash_handler (env : Env) (config : HandlerConfig) (s : HandlerState) :
    (Except InitError Unit) × HandlerState :=
  if dirCreateOk env s config.dump_directory then
    let s1 := { s with created_dirs := config.dump_directory :: s.created_dirs }
    match s1.handler_config with
    | some _ => (Except.error InitError.alreadyInitialized, s1)
    | none =>
      install_signal_handlers env { s1 with handler_config := some config }
  else (Except.error (InitError.directoryCreateFailed config.dump_directory), s)

/-- Observable actions of one trampoline invocation, in execution order.
dumpAttempted records the path handed to the snapshot writer and the writer
call's result, which the trampoline discards. -/
inductive TrampAction where
  | hookInvoked
  | dumpAttempted (path : String) (writerOk : Bool)
  | restoredDefault (sig : Int)
  | reraised (sig : Int)
deriving DecidableEq

/-- Embeds signal_handler (src/minidump-handler/src/lib.rs, lines 114-140) as
the list of its observable actions. store is the HANDLER_CONFIG cell content,
lockAcquired the outcome of Mutex::try_lock, writerOk the (ignored) result of
write_minidump_for_signal, now the wall-clock read inside generate_filename. -/
def signal_handler (store : Option HandlerConfig) (lockAcquired : Bool)
    (writerOk : Bool) (sig code : Int) (addr : Nat) (now : Nat) : List TrampAction :=
  let si : SignalInfo := { signal := sig, code := code, address := addr }
  let capture :=
    match store with
    | none => []
    | some config =>
      if lockAcquired then
        (if (HandlerConfig.pre_dump_callback config).isSome
          then [TrampAction.hookInvoked] else [])
        ++ [TrampAction.dumpAttempted
              (config.dump_directory ++ "/" ++ generate_filename config si now) writerOk]
      else []
  capture ++ [TrampAction.restoredDefault sig, TrampAction.reraised sig]

/-- Embeds the per-signal filename stem of the RustLib signal_handler
(src/RustLib/src/lib.rs, lines 170-178). -/
def rustlibFilename (sig : Int) : String :=
  if sig = SIGSEGV then "crash_sigsegv"
  else if sig = SIGBUS then "crash_sigbus"
  else if sig = SIGABRT then "crash_sigabrt"
  else if sig = SIGFPE then "crash_sigfpe"
  else if sig = SIGILL then "crash_sigill"
  else if sig = SIGTRAP then "crash_sigtrap"
  else "crash_unknown"

/-- Embeds signal_handler (src/RustLib/src/lib.rs, lines 163-204): the
path-based variant, reading the CRASH_DUMP_PATH cell with try_lock; no hook
exists in this variant. -/
def rustlib_signal_handler (dumpPath : Option String) (lockAcquired : Bool)
    (writerOk : Bool) (sig : Int) : List TrampAction :=
  let capture :=
    if lockAcquired then
      match dumpPath with
      | some basePath =>
        [TrampAction.dumpAttempted
          (basePath ++ "/" ++ rustlibFilename sig ++ ".dmp") writerOk]
      | none => []
    else []
  capture ++ [TrampAction.restoredDefault sig, TrampAction.reraised sig]

/-! Fault triggers (src/minidump-handler/src/lib.rs, lines 259-338) and the
Flutter-bridge trigger surface
(src/rust/minidump-flutter-bridge/src/api/mod.rs, lines 60-81). -/

/-- Outcome of invoking a fault trigger: the process terminates via the given
signal, or the operation returns normally without terminating anything. -/
inductive TriggerOutcome where
  | terminated (sig : Int)
  | returnedNormally
deriving DecidableEq

/-- Target CPU architecture, selecting between the cfg target_arch branches
of the trigger harness. -/
inductive Arch where
  | x86_64
  | aarch64
deriving DecidableEq

/-- Embeds enum CrashType (src/rust/minidump-flutter-bridge/src/api/mod.rs,
lines 11-18). -/
inductive CrashType where
  | segfault
  | abort
  | busError
  | divideByZero
  | illegalInstruction
  | stackOverflow
deriving DecidableEq

namespace crash_triggers

/-- Embeds crash_triggers::trigger_segfault (lines 263-268): null-pointer
write, SIGSEGV. The function carries no cfg gate, so its behaviour is the
same in debug and release builds; isDebug is the build flag and is unused. -/
def trigger_segfault (_isDebug : Bool) : TriggerOutcome :=
  TriggerOutcome.terminated SIGSEGV

/-- Embeds crash_triggers::trigger_bus_error (lines 272-277): misaligned
volatile read, SIGBUS. No cfg gate; identical in every build. -/
def trigger_bus_error (_isDebug : Bool) : TriggerOutcome :=
  TriggerOutcome.terminated SIGBUS

/-- Embeds crash_triggers::trigger_abort (lines 280-282):
std::process::abort, SIGABRT. No cfg gate; identical in every build. -/
def trigger_abort (_isDebug : Bool) : TriggerOutcome :=
  TriggerOutcome.terminated SIGABRT

/-- Embeds crash_triggers::trigger_divide_by_zero (lines 285-309): the Rust
division by zero panics and catch_unwind captures it, so result.is_err()
holds and the inline-assembly branch runs. On x86_64 the div instruction
with a zero divisor raises a divide error, delivered as SIGFPE. On aarch64
(the iOS target) sdiv with a zero divisor yields 0 without trapping, so the
function returns normally and no signal is raised. No cfg gate on the build
profile. -/
def trigger_divide_by_zero (_isDebug : Bool) (arch : Arch) : TriggerOutcome :=
  match arch with
  | Arch.x86_64 => TriggerOutcome.terminated SIGFPE
  | Arch.aarch64 => TriggerOutcome.returnedNormally

/-- Embeds crash_triggers::trigger_illegal_instruction (lines 312-324): an
undefined instruction encoding — ud2 on x86_64, the permanently undefined
word 0 on aarch64 — raising SIGILL on either architecture. No cfg gate;
identical in every build. -/
def trigger_illegal_instruction (_isDebug : Bool) : TriggerOutcome :=
  TriggerOutcome.terminated SIGILL

/-- Embeds the inner function recurse of trigger_stack_overflow (lines
328-335), indexed by the number of stack frames still available (each call
consumes one frame holding the 8192-byte array): error means the stack was
exhausted before returning (the OS delivers a fault), ok carries the normal
return value. The body recurses only when n is greater than 0, and the
recursive call adds arr at index 0, which is 0. -/
def recurse (fuel : Nat) (n : Nat) : Except Unit Nat :=
  match fuel with
  | 0 => Except.error ()
  | fuel' + 1 =>
    if n > 0 then
      match recurse fuel' (n + 1) with
      | Except.ok v => Except.ok (v + 0)
      | Except.error e => Except.error e
    else Except.ok n

/-- Embeds crash_triggers::trigger_stack_overflow (lines 327-337): calls
recurse(0). The recursion guard requires n greater than 0, so the initial
call with 0 takes the else branch and returns immediately — no recursion, no
stack overflow, in any build with at least one available frame. No cfg
gate. -/
def trigger_stack_overflow (_isDebug : Bool) (stackFrames : Nat) : TriggerOutcome :=
  match recurse stackFrames 0 with
  | Except.ok _ => TriggerOutcome.returnedNormally
  | Except.error _ => TriggerOutcome.terminated SIGSEGV

/-- Dispatch of a CrashType to the corresponding trigger, as done by both the
CLI (src/rust/minidump-gen-cli/src/main.rs, lines 84-95) and the bridge. -/
def trigger (isDebug : Bool) (arch : Arch) (stackFrames : Nat) : CrashType → TriggerOutcome
  | CrashType.segfault => trigger_segfault isDebug
  | CrashType.abort => trigger_abort isDebug
  | CrashType.busError => trigger_bus_error isDebug
  | CrashType.divideByZero => trigger_divide_by_zero isDebug arch
  | CrashType.illegalInstruction => trigger_illegal_instruction isDebug
  | CrashType.stackOverflow => trigger_stack_overflow isDebug stackFrames

end crash_triggers

namespace MinidumpApi

/-- Embeds MinidumpApi::trigger_crash
(src/rust/minidump-flutter-bridge/src/api/mod.rs, lines 60-76): the function
compiled under cfg debug_assertions dispatches to the trigger and the process
terminates; the release-build replacement returns an error without touching
any trigger. isDebug models the debug_assertions flag. -/
def trigger_crash (isDebug : Bool) (arch : Arch) (stackFrames : Nat)
    (crash_type : CrashType) : Except String TriggerOutcome :=
  if isDebug then Except.ok (crash_triggers.trigger isDebug arch stackFrames crash_type)
  else Except.error "Crash triggers are only available in debug builds"

/-- Embeds MinidumpApi::has_crash_triggers (lines 78-81). -/
def has_crash_triggers (isDebug : Bool) : Bool :=
  isDebug

end MinidumpApi

/-! FFI boundary of src/RustLib/src/lib.rs. -/

/-- A C string handed back in FFIResult.error_message, tagged by how it was
produced: staticMsg for a pointer into a static byte string (no release),
ownedMsg for CString::into_raw (caller must release). -/
inductive CMessage where
  | staticMsg (s : String)
  | ownedMsg (s : String)
deriving DecidableEq

/-- Embeds struct FFIResult (src/RustLib/src/lib.rs, lines 9-13); a null
error_message pointer is none. -/
structure FFIResult where
  success : Bool
  error_message : Option CMessage
deriving DecidableEq

/-- A const c_char pointer argument as seen from the FFI: null, non-UTF-8
bytes, or bytes decoding to the given text. -/
inductive CStrArg where
  | nullPtr
  | invalidUtf8
  | text (s : String)
deriving DecidableEq

/-- Environment of externally decided outcomes for the RustLib crate: whether
a directory exists beforehand, whether fs::create_dir_all succeeds on it,
whether MinidumpWriter::write_minidump succeeds for a path, the delegate's
error text when it fails, and whether sigaction succeeds for a signal. -/
structure FfiEnv where
  dir_exists : String → Bool
  dir_creatable : String → Bool
  writer_ok : String → Bool
  writer_err : String → String
  sigaction_ok : Int → Bool

/-- Process-global state of the RustLib crate: the CRASH_DUMP_PATH cell
(line 160), directories created, files written, and sigaction registrations
recorded as (signal, sa_flags) in order. -/
structure LibState where
  crash_dump_path : Option String
  created_dirs : List String
  files : List String
  registrations : List (Int × Nat)
deriving DecidableEq

/-- Outcome of an FFI call that can panic: either an FFIResult returned
together with the resulting process state, or a Rust panic reaching the
extern boundary — the process aborts and nothing is returned. -/
inductive CallOutcome where
  | ret (r : FFIResult) (s : LibState)
  | panicked
deriving DecidableEq

/-- Embeds std CString::new: produces the C string unless the input contains
a NUL byte anywhere (NulError). Both delegate-failure sites unwrap this
result, so a NulError becomes a panic. -/
def cstring_new (s : String) : Option String :=
  if s.data.contains (Char.ofNat 0) then none else some s

/-- Models std Path::parent for the ordinary paths used here: the text before
the final slash (empty for a bare filename, as in Rust), none for the root or
the empty path. -/
def parentDir (p : String) : Option String :=
  if p = "" || p = "/" then none
  else
    let parts := p.splitOn "/"
    some (String.intercalate "/" parts.dropLast)

/-- Models the parent-existence test at src/RustLib/src/lib.rs line 67: a
directory exists if it pre-existed in the environment or was created. -/
def ffiDirExists (env : FfiEnv) (s : LibState) (dir : String) : Bool :=
  env.dir_exists dir || s.created_dirs.contains dir

/-- Embeds minidump_writer_ios_write_dump (src/RustLib/src/lib.rs,
lines 40-91). handle is none for a null handle pointer. Order of the source:
null checks, UTF-8 decode, parent-directory creation, delegate call. The
directory-creation failure message is a static byte string (line 71). On
delegate failure the source formats the message with a trailing NUL byte
(line 83) and feeds it to CString::new(..).unwrap() (line 84): the Ok arm
would return the owned string via into_raw, but CString::new rejects the
embedded NUL, so the unwrap panics and no FFIResult is returned. -/
def minidump_writer_ios_write_dump (env : FfiEnv) (handle : Option Unit)
    (path : CStrArg) (s : LibState) : CallOutcome :=
  match handle, path with
  | none, _ =>
    CallOutcome.ret
      { success := false, error_message := some (CMessage.staticMsg "Invalid parameters") } s
  | some _, CStrArg.nullPtr =>
    CallOutcome.ret
      { success := false, error_message := some (CMessage.staticMsg "Invalid parameters") } s
  | some _, CStrArg.invalidUtf8 =>
    CallOutcome.ret
      { success := false, error_message := some (CMessage.staticMsg "Invalid path encoding") } s
  | some _, CStrArg.text p =>
    let afterDir : Option LibState :=
      match parentDir p with
      | some parent =>
        if ffiDirExists env s parent then some s
        else if env.dir_creatable parent then
          some { s with created_dirs := parent :: s.created_dirs }
        else none
      | none => some s
    match afterDir with
    | none =>
      CallOutcome.ret
        { success := false,
          error_message := some (CMessage.staticMsg "Failed to create output directory") } s
    | some s1 =>
      if env.writer_ok p then
        CallOutcome.ret { success := true, error_message := none }
          { s1 with files := p :: s1.files }
      else
        match cstring_new ("Failed to write minidump: " ++ env.writer_err p ++ "\x00") with
        | some msg =>
          CallOutcome.ret
            { success := false, error_message := some (CMessage.ownedMsg msg) } s1
        | none => CallOutcome.panicked

/-- Embeds minidump_writer_ios_write_dump_with_exception
(src/RustLib/src/lib.rs, lines 95-147). Same null and UTF-8 rejection as
write_dump; unlike write_dump it creates no directory, sets the crash context
on the handle's writer, and calls the delegate. The exception fields only
feed the crash context, which has no further modelled effect. Its
delegate-failure site (lines 139-140) has the same trailing-NUL format
string, so the CString::new unwrap panics there too. -/
def minidump_writer_ios_write_dump_with_exception (env : FfiEnv)
    (handle : Option Unit) (path : CStrArg)
    (_exception_type : Nat) (_exception_code : Nat) (_exception_address : Nat)
    (s : LibState) : CallOutcome :=
  match handle, path with
  | none, _ =>
    CallOutcome.ret
      { success := false, error_message := some (CMessage.staticMsg "Invalid parameters") } s
  | some _, CStrArg.nullPtr =>
    CallOutcome.ret
      { success := false, error_message := some (CMessage.staticMsg "Invalid parameters") } s
  | some _, CStrArg.invalidUtf8 =>
    CallOutcome.ret
      { success := false, error_message := some (CMessage.staticMsg "Invalid path encoding") } s
  | some _, CStrArg.text p =>
    if env.writer_ok p then
      CallOutcome.ret { success := true, error_message := none }
        { s with files := p :: s.files }
    else
      match cstring_new ("Failed to write minidump with exception: " ++ env.writer_err p ++ "\x00") with
      | some msg =>
        CallOutcome.ret
          { success := false, error_message := some (CMessage.ownedMsg msg) } s
      | none => CallOutcome.panicked

/-- Embeds the sigaction loop of minidump_writer_ios_install_handlers
(src/RustLib/src/lib.rs, lines 242-249): registers in order, returning the
static failure message at the first failure, keeping earlier registrations. -/
def rustlibRegisterSignals (env : FfiEnv) : List Int → LibState → FFIResult × LibState
  | [], s => ({ success := true, error_message := none }, s)
  | sig :: rest, s =>
    if env.sigaction_ok sig then
      rustlibRegisterSignals env rest
        { s with registrations := s.registrations ++ [(sig, SA_SIGINFO)] }
    else
      ({ success := false,
         error_message := some (CMessage.staticMsg "Failed to install signal handler") }, s)

/-- Embeds minidump_writer_ios_install_handlers (src/RustLib/src/lib.rs,
lines 208-256): null and UTF-8 checks, then unconditionally overwrite the
CRASH_DUMP_PATH cell with the new path, then register the signal set. -/
def minidump_writer_ios_install_handlers (env : FfiEnv) (dump_path : CStrArg)
    (s : LibState) : FFIResult × LibState :=
  match dump_path with
  | CStrArg.nullPtr =>
    ({ success := false, error_message := some (CMessage.staticMsg "Dump path is required") }, s)
  | CStrArg.invalidUtf8 =>
    ({ success := false, error_message := some (CMessage.staticMsg "Invalid path encoding") }, s)
  | CStrArg.text p =>
    rustlibRegisterSignals env handledSignals { s with crash_dump_path := some p }

/-- Embeds minidump_writer_ios_free (src/RustLib/src/lib.rs, lines 30-36)
over an explicit heap of live handle allocations (identified by Nat tokens):
a null pointer is a no-op, otherwise the allocation is dropped. -/
def minidump_writer_ios_free (handle : Option Nat) (handles : List Nat) : List Nat :=
  match handle with
  | none => handles
  | some h => handles.erase h

/-- Embeds minidump_writer_ios_free_error_message (src/RustLib/src/lib.rs,
lines 151-157) over an explicit heap of live CString allocations: a null
pointer is a no-op, otherwise CString::from_raw retakes and drops it. -/
def minidump_writer_ios_free_error_message (msg : Option Nat) (allocs : List Nat) : List Nat :=
  match msg with
  | none => allocs
  | some m => allocs.erase m

/-- Embeds minidump_writer_ios_test (src/RustLib/src/lib.rs, lines 260-262). -/
def minidump_writer_ios_test : Int := 1

/-! Concrete environments and states used to instantiate the theorems. -/

/-- Environment where every directory creation and every sigaction succeeds. -/
def envAllOk : Env :=
  { dir_creatable := fun _ => true, sigaction_ok := fun _ => true }

/-- Environment where no directory can be created. -/
def envNoCreate : Env :=
  { dir_creatable := fun _ => false, sigaction_ok := fun _ => true }

/-- Environment where sigaction succeeds only for SIGSEGV and SIGBUS, so the
installer loop fails on the third signal, SIGABRT. -/
def envFailAbort : Env :=
  { dir_creatable := fun _ => true,
    sigaction_ok := fun t => t == SIGSEGV || t == SIGBUS }

/-- Environment where only the directory dumps1 can be created. -/
def envOnlyDumps1 : Env :=
  { dir_creatable := fun d => d == "dumps1", sigaction_ok := fun _ => true }

/-- Process state before any initialization. -/
def initialHandlerState : HandlerState :=
  { handler_config := none, created_dirs := [], registrations := [] }

/-- A first handler configuration, dump directory dumps1. -/
def cfgA : HandlerConfig :=
  { dump_directory := "dumps1", filename_prefix := "crash",
    append_timestamp := true, pre_dump_callback := none }

/-- A second handler configuration, dump directory dumps2. -/
def cfgB : HandlerConfig :=
  { dump_directory := "dumps2", filename_prefix := "crash",
    append_timestamp := true, pre_dump_callback := none }

/-- FFI environment where everything succeeds. -/
def ffiAllOk : FfiEnv :=
  { dir_exists := fun _ => true, dir_creatable := fun _ => true,
    writer_ok := fun _ => true, writer_err := fun _ => "",
    sigaction_ok := fun _ => true }

/-- FFI environment where no directory exists and none can be created. -/
def ffiNoDir : FfiEnv :=
  { dir_exists := fun _ => false, dir_creatable := fun _ => false,
    writer_ok := fun _ => true, writer_err := fun _ => "",
    sigaction_ok := fun _ => true }

/-- FFI environment where the snapshot-writer delegate always fails. -/
def ffiWriterFail : FfiEnv :=
  { dir_exists := fun _ => true, dir_creatable := fun _ => true,
    writer_ok := fun _ => false, writer_err := fun _ => "mach port unavailable",
    sigaction_ok := fun _ => true }

/-- RustLib process state before any initialization. -/
def initialLibState : LibState :=
  { crash_dump_path := none, created_dirs := [], files := [], registrations := [] }

/-! Helper lemmas about the sigaction registration loops. -/

/-- When sigaction succeeds on every signal of the list, the loop registers
each of them with SA_SIGINFO, in order, and succeeds. -/
theorem registerSignals_ok_of_all (env : Env) (sigs : List Int) (s : HandlerState)
    (h : ∀ sig ∈ sigs, env.sigaction_ok sig = true) :
    registerSignals env sigs s
      = (Except.ok (),
         { s with registrations :=
             s.registrations ++ sigs.map (fun t => (t, SA_SIGINFO)) }) := by
  induction sigs generalizing s with
  | nil => simp [registerSignals]
  | cons a rest ih =>
    have ha : env.sigaction_ok a = true := h a (List.mem_cons_self a rest)
    have hr : ∀ sig ∈ rest, env.sigaction_ok sig = true :=
      fun sig hs => h sig (List.mem_cons_of_mem a hs)
    simp [registerSignals, ha, ih _ hr, List.append_assoc]

/-- When sigaction succeeds on every signal of pre and fails on sig, the loop
stops at sig with an error, keeping exactly the registrations for pre. -/
theorem registerSignals_stops_at_failure (env : Env) (pre : List Int) (sig : Int)
    (post : List Int) (s : HandlerState)
    (hpre : ∀ t ∈ pre, env.sigaction_ok t = true)
    (hsig : env.sigaction_ok sig = false) :
    registerSignals env (pre ++ sig :: post) s
      = (Except.error (InitError.signalInstallFailed sig),
         { s with registrations :=
             s.registrations ++ pre.map (fun t => (t, SA_SIGINFO)) }) := by
  induction pre generalizing s with
  | nil => simp [registerSignals, hsig]
  | cons a rest ih =>
    have ha : env.sigaction_ok a = true := hpre a (List.mem_cons_self a rest)
    have hr : ∀ t ∈ rest, env.sigaction_ok t = true :=
      fun t ht => hpre t (List.mem_cons_of_mem a ht)
    simp [registerSignals, ha, ih _ hr, List.append_assoc]

/-- RustLib variant of the all-success registration lemma; the path cell is
untouched by the loop. -/
theorem rustlibRegisterSignals_ok_of_all (env : FfiEnv) (sigs : List Int) (s : LibState)
    (h : ∀ sig ∈ sigs, env.sigaction_ok sig = true) :
    rustlibRegisterSignals env sigs s
      = ({ success := true, error_message := none },
         { s with registrations :=
             s.registrations ++ sigs.map (fun t => (t, SA_SIGINFO)) }) := by
  induction sigs generalizing s with
  | nil => simp [rustlibRegisterSignals]
  | cons a rest ih =>
    have ha : env.sigaction_ok a = true := h a (List.mem_cons_self a rest)
    have hr : ∀ sig ∈ rest, env.sigaction_ok sig = true :=
      fun sig hs => h sig (List.mem_cons_of_mem a hs)
    simp [rustlibRegisterSignals, ha, ih _ hr, List.append_assoc]

/-- Any text with the trailing NUL byte appended, as built by both
delegate-failure format strings, is rejected by CString::new. -/
theorem cstring_new_append_nul (x : String) : cstring_new (x ++ "\x00") = none := by
  simp [cstring_new, String.data_append]

/-- C1: for every invocation of either signal trampoline — whatever the
configuration store holds, whether the non-blocking lock attempt succeeds,
whether a hook is configured, and whatever the snapshot-writer result — the
invocation ends by restoring the default disposition for the triggering
signal and re-raising that same signal; and when the lock attempt fails the
trampoline performs nothing but that final step. -/
theorem C1_trampoline_always_restores_and_reraises
    (store : Option HandlerConfig) (lockAcquired writerOk : Bool)
    (sig code : Int) (addr now : Nat) (dumpPath : Option String) :
    (∃ l, signal_handler store lockAcquired writerOk sig code addr now
        = l ++ [TrampAction.restoredDefault sig, TrampAction.reraised sig])
    ∧ (lockAcquired = false →
        signal_handler store lockAcquired writerOk sig code addr now
          = [TrampAction.restoredDefault sig, TrampAction.reraised sig])
    ∧ (∃ l, rustlib_signal_handler dumpPath lockAcquired writerOk sig
        = l ++ [TrampAction.restoredDefault sig, TrampAction.reraised sig])
    ∧ (lockAcquired = false →
        rustlib_signal_handler dumpPath lockAcquired writerOk sig
          = [TrampAction.restoredDefault sig, TrampAction.reraised sig]) := by
  refine ⟨⟨_, rfl⟩, ?_, ⟨_, rfl⟩, ?_⟩
  · intro h
    subst h
    cases store <;> simp [signal_handler]
  · intro h
    subst h
    cases dumpPath <;> simp [rustlib_signal_handler]

/-- Witness for C1 at a concrete invocation: lock attempt failed, store
populated, so only the restore-and-reraise step runs, in both variants. -/
theorem C1_witness :
    signal_handler (some cfgA) false true SIGSEGV 1 4096 100
      = [TrampAction.restoredDefault SIGSEGV, TrampAction.reraised SIGSEGV]
    ∧ rustlib_signal_handler (some "dumps") false true SIGSEGV
      = [TrampAction.restoredDefault SIGSEGV, TrampAction.reraised SIGSEGV] :=
  ⟨(C1_trampoline_always_restores_and_reraises (some cfgA) false true SIGSEGV 1 4096 100
      (some "dumps")).2.1 rfl,
   (C1_trampoline_always_restores_and_reraises (some cfgA) false true SIGSEGV 1 4096 100
      (some "dumps")).2.2.2 rfl⟩

/-- C2 counterexample: after a successful first install (directory dumps1),
a second install whose dump directory dumps2 cannot be created fails with the
directory-creation error, not AlreadyInitialized — because init_crash_handler
runs create_dir_all before the once-cell check. -/
theorem C2_counterexample :
    (init_crash_handler envOnlyDumps1 cfgA initialHandlerState).fst = Except.ok ()
    ∧ (init_crash_handler envOnlyDumps1 cfgB
        (init_crash_handler envOnlyDumps1 cfgA initialHandlerState).snd).fst
      = Except.error (InitError.directoryCreateFailed "dumps2")
    ∧ InitError.directoryCreateFailed "dumps2" ≠ InitError.alreadyInitialized := by
  refine ⟨rfl, rfl, ?_⟩
  decide

/-- C2 (amended): after the configuration store is populated, every further
init_crash_handler call fails — with AlreadyInitialized whenever the dump
directory can be created (in particular whenever the arguments equal those of
the successful call, since its directory then already exists), and with the
directory-creation error otherwise — and the stored configuration is never
replaced. -/
theorem C2_second_install_never_replaces
    (env : Env) (config c0 : HandlerConfig) (s : HandlerState)
    (hset : s.handler_config = some c0) :
    (∃ e, (init_crash_handler env config s).fst = Except.error e)
    ∧ (dirCreateOk env s config.dump_directory = true →
        (init_crash_handler env config s).fst = Except.error InitError.alreadyInitialized)
    ∧ (dirCreateOk env s config.dump_directory = false →
        (init_crash_handler env config s).fst
          = Except.error (InitError.directoryCreateFailed config.dump_directory))
    ∧ ((init_crash_handler env config s).snd).handler_config = some c0 := by
  cases h : dirCreateOk env s config.dump_directory with
  | false =>
    refine ⟨⟨InitError.directoryCreateFailed config.dump_directory, ?_⟩, ?_, ?_, ?_⟩ <;>
      simp [init_crash_handler, h, hset]
  | true =>
    refine ⟨⟨InitError.alreadyInitialized, ?_⟩, ?_, ?_, ?_⟩ <;>
      simp [init_crash_handler, h, hset]

/-- Witness for the amended C2: with the store already holding cfgA, a
repeat call with the same arguments yields AlreadyInitialized and keeps
cfgA. -/
theorem C2_witness :
    (∃ e, (init_crash_handler envOnlyDumps1 cfgA
        { handler_config := some cfgA, created_dirs := ["dumps1"], registrations := [] }).fst
      = Except.error e)
    ∧ (dirCreateOk envOnlyDumps1
        { handler_config := some cfgA, created_dirs := ["dumps1"], registrations := [] }
        cfgA.dump_directory = true →
      (init_crash_handler envOnlyDumps1 cfgA
        { handler_config := some cfgA, created_dirs := ["dumps1"], registrations := [] }).fst
        = Except.error InitError.alreadyInitialized)
    ∧ (dirCreateOk envOnlyDumps1
        { handler_config := some cfgA, created_dirs := ["dumps1"], registrations := [] }
        cfgA.dump_directory = false →
      (init_crash_handler envOnlyDumps1 cfgA
        { handler_config := some cfgA, created_dirs := ["dumps1"], registrations := [] }).fst
        = Except.error (InitError.directoryCreateFailed cfgA.dump_directory))
    ∧ ((init_crash_handler envOnlyDumps1 cfgA
        { handler_config := some cfgA, created_dirs := ["dumps1"], registrations := [] }).snd).handler_config
      = some cfgA :=
  C2_second_install_never_replaces envOnlyDumps1 cfgA cfgA
    { handler_config := some cfgA, created_dirs := ["dumps1"], registrations := [] } rfl

/-- C3: when the dump directory cannot be created, init_crash_handler
returns the directory-creation error and leaves the whole state — in
particular the configuration store — untouched, so a later install in a
healthier environment still succeeds. -/
theorem C3_install_atomic_on_dir_failure
    (env : Env) (config : HandlerConfig) (s : HandlerState)
    (hdir : dirCreateOk env s config.dump_directory = false) :
    (init_crash_handler env config s).fst
      = Except.error (InitError.directoryCreateFailed config.dump_directory)
    ∧ (init_crash_handler env config s).snd = s
    ∧ (∀ env2 config2,
        s.handler_config = none →
        dirCreateOk env2 s config2.dump_directory = true →
        (∀ sig, env2.sigaction_ok sig = true) →
        (init_crash_handler env2 config2 (init_crash_handler env config s).snd).fst
          = Except.ok ()) := by
  have hfail :
      init_crash_handler env config s
        = (Except.error (InitError.directoryCreateFailed config.dump_directory), s) := by
    simp [init_crash_handler, hdir]
  refine ⟨by simp [hfail], by simp [hfail], ?_⟩
  intro env2 config2 hnone hdir2 hsig2
  rw [hfail]
  simp only [init_crash_handler, hdir2, if_true]
  rw [hnone]
  simp [install_signal_handlers,
    registerSignals_ok_of_all env2 handledSignals _ (fun sig _ => hsig2 sig)]

/-- Witness for C3 at a concrete input: no directory creatable, store unset;
the call fails with the directory error, changes nothing, and a subsequent
call in the all-success environment succeeds. -/
theorem C3_witness :
    (init_crash_handler envNoCreate cfgA initialHandlerState).fst
      = Except.error (InitError.directoryCreateFailed cfgA.dump_directory)
    ∧ (init_crash_handler envNoCreate cfgA initialHandlerState).snd = initialHandlerState
    ∧ (∀ env2 config2,
        initialHandlerState.handler_config = none →
        dirCreateOk env2 initialHandlerState config2.dump_directory = true →
        (∀ sig, env2.sigaction_ok sig = true) →
        (init_crash_handler env2 config2
          (init_crash_handler envNoCreate cfgA initialHandlerState).snd).fst
          = Except.ok ()) :=
  C3_install_atomic_on_dir_failure envNoCreate cfgA initialHandlerState rfl

/-- C4: for every prefix text and every supported signal, the filename is the
prefix, an underscore, the lowercased signal name and the extension dmp when
timestamping is off; with timestamping on, an extra underscore-seconds suffix
precedes the extension, and the embedded seconds values of two sequential
calls whose clock reads are t1 and t2 with t1 at most t2 are themselves
non-decreasing. -/
theorem C4_filename_policy
    (p d : String) (hook : Option Unit) (sig : Int) (hsig : sig ∈ handledSignals)
    (code : Int) (addr : Nat) (now : Nat) :
    (generate_filename
        { dump_directory := d, filename_prefix := p, append_timestamp := false,
          pre_dump_callback := hook }
        { signal := sig, code := code, address := addr } now
      = p ++ "_" ++ strToLower (signal_name sig) ++ ".dmp")
    ∧ (generate_filename
        { dump_directory := d, filename_prefix := p, append_timestamp := true,
          pre_dump_callback := hook }
        { signal := sig, code := code, address := addr } now
      = p ++ "_" ++ strToLower (signal_name sig) ++ "_" ++ toString now ++ ".dmp")
    ∧ (∀ t1 t2 : Nat, t1 ≤ t2 → ∃ d1 d2 : Nat, d1 ≤ d2
        ∧ generate_filename
            { dump_directory := d, filename_prefix := p, append_timestamp := true,
              pre_dump_callback := hook }
            { signal := sig, code := code, address := addr } t1
          = p ++ "_" ++ strToLower (signal_name sig) ++ "_" ++ toString d1 ++ ".dmp"
        ∧ generate_filename
            { dump_directory := d, filename_prefix := p, append_timestamp := true,
              pre_dump_callback := hook }
            { signal := sig, code := code, address := addr } t2
          = p ++ "_" ++ strToLower (signal_name sig) ++ "_" ++ toString d2 ++ ".dmp") := by
  have hcases : sig = SIGSEGV ∨ sig = SIGBUS ∨ sig = SIGABRT ∨ sig = SIGFPE
      ∨ sig = SIGILL ∨ sig = SIGTRAP := by
    simpa [handledSignals] using hsig
  rcases hcases with h | h | h | h | h | h <;> subst h <;>
    exact ⟨rfl, rfl, fun t1 t2 ht => ⟨t1, t2, ht, rfl, rfl⟩⟩

/-- Witness for C4: the concrete instance of the spec, crash and SIGSEGV with
timestamping off, plus a timestamped call at second 7. -/
theorem C4_witness :
    generate_filename
      { dump_directory := "dumps", filename_prefix := "crash", append_timestamp := false,
        pre_dump_callback := none }
      { signal := SIGSEGV, code := 0, address := 0 } 0
      = "crash_sigsegv.dmp"
    ∧ generate_filename
      { dump_directory := "dumps", filename_prefix := "crash", append_timestamp := true,
        pre_dump_callback := none }
      { signal := SIGSEGV, code := 0, address := 0 } 7
      = "crash_sigsegv_7.dmp"
    ∧ (∃ d1 d2 : Nat, d1 ≤ d2
        ∧ generate_filename
            { dump_directory := "dumps", filename_prefix := "crash", append_timestamp := true,
              pre_dump_callback := none }
            { signal := SIGSEGV, code := 0, address := 0 } 3
          = "crash" ++ "_" ++ strToLower (signal_name SIGSEGV) ++ "_" ++ toString d1 ++ ".dmp"
        ∧ generate_filename
            { dump_directory := "dumps", filename_prefix := "crash", append_timestamp := true,
              pre_dump_callback := none }
            { signal := SIGSEGV, code := 0, address := 0 } 7
          = "crash" ++ "_" ++ strToLower (signal_name SIGSEGV) ++ "_" ++ toString d2 ++ ".dmp") :=
  ⟨((C4_filename_policy "crash" "dumps" none SIGSEGV (by decide) 0 0 0).1).trans (by decide),
   ((C4_filename_policy "crash" "dumps" none SIGSEGV (by decide) 0 0 7).2.1).trans (by decide),
   (C4_filename_policy "crash" "dumps" none SIGSEGV (by decide) 0 0 0).2.2 3 7 (by decide)⟩

/-- C5: each FFI operation taking pointer or text arguments — write_dump,
write_dump_with_exception, install_handlers — rejects a null required pointer
or a non-UTF-8 path before any side effect: the call returns (it does not
panic) with the state unchanged (no file, no directory, no registration, no
stored path) and the result carries success false with a static, non-owned
message. -/
theorem C5_invalid_input_rejected_before_side_effects
    (env : FfiEnv) (s : LibState) (p : CStrArg) (et ec ea : Nat) :
    minidump_writer_ios_write_dump env none p s
      = CallOutcome.ret
          { success := false,
            error_message := some (CMessage.staticMsg "Invalid parameters") } s
    ∧ minidump_writer_ios_write_dump env (some ()) CStrArg.nullPtr s
      = CallOutcome.ret
          { success := false,
            error_message := some (CMessage.staticMsg "Invalid parameters") } s
    ∧ minidump_writer_ios_write_dump env (some ()) CStrArg.invalidUtf8 s
      = CallOutcome.ret
          { success := false,
            error_message := some (CMessage.staticMsg "Invalid path encoding") } s
    ∧ minidump_writer_ios_write_dump_with_exception env none p et ec ea s
      = CallOutcome.ret
          { success := false,
            error_message := some (CMessage.staticMsg "Invalid parameters") } s
    ∧ minidump_writer_ios_write_dump_with_exception env (some ()) CStrArg.nullPtr et ec ea s
      = CallOutcome.ret
          { success := false,
            error_message := some (CMessage.staticMsg "Invalid parameters") } s
    ∧ minidump_writer_ios_write_dump_with_exception env (some ()) CStrArg.invalidUtf8 et ec ea s
      = CallOutcome.ret
          { success := false,
            error_message := some (CMessage.staticMsg "Invalid path encoding") } s
    ∧ minidump_writer_ios_install_handlers env CStrArg.nullPtr s
      = ({ success := false,
           error_message := some (CMessage.staticMsg "Dump path is required") }, s)
    ∧ minidump_writer_ios_install_handlers env CStrArg.invalidUtf8 s
      = ({ success := false,
           error_message := some (CMessage.staticMsg "Invalid path encoding") }, s) := by
  cases p <;> exact ⟨rfl, rfl, rfl, rfl, rfl, rfl, rfl, rfl⟩

/-- C6 counterexample: with a valid handle and decodable path whose parent
directory does not exist and cannot be created, write_dump returns a result
whose message is the static byte string of line 71 of src/RustLib/src/lib.rs,
not an owned CString — so releasing it would be undefined behaviour,
contradicting the claim. -/
theorem C6_counterexample :
    minidump_writer_ios_write_dump ffiNoDir (some ())
        (CStrArg.text "out/crash.dmp") initialLibState
      = CallOutcome.ret
          { success := false,
            error_message := some (CMessage.staticMsg "Failed to create output directory") }
          initialLibState
    ∧ (match minidump_writer_ios_write_dump ffiNoDir (some ())
          (CStrArg.text "out/crash.dmp") initialLibState with
       | CallOutcome.ret r _ =>
         match r.error_message with
         | some (CMessage.ownedMsg _) => False
         | _ => True
       | CallOutcome.panicked => False) := by
  exact ⟨by decide, by trivial⟩

/-- C6 (amended): a write-dump call that fails during processing never
returns a dynamically allocated, caller-owned message. A directory-creation
failure returns an FFIResult carrying a static, non-owned message, and a
failing delegate call panics — the formatted message embeds a NUL byte, so
the CString::new unwrap aborts the call and no FFIResult is returned at all;
consequently no returned FFIResult of either write operation ever carries an
owned message. -/
theorem C6_no_owned_message_on_processing_failure
    (env : FfiEnv) (s : LibState) (p : String)
    (hwriter : env.writer_ok p = false)
    (hparent : ∀ parent, parentDir p = some parent →
        ffiDirExists env s parent = true ∨ env.dir_creatable parent = true) :
    minidump_writer_ios_write_dump env (some ()) (CStrArg.text p) s = CallOutcome.panicked
    ∧ minidump_writer_ios_write_dump_with_exception env (some ()) (CStrArg.text p) 0 0 0 s
      = CallOutcome.panicked
    ∧ (∀ (env2 : FfiEnv) (handle : Option Unit) (path : CStrArg) (s2 : LibState)
          (r : FFIResult) (s3 : LibState) (m : String),
        minidump_writer_ios_write_dump env2 handle path s2 = CallOutcome.ret r s3 →
        r.error_message ≠ some (CMessage.ownedMsg m))
    ∧ (∀ (env2 : FfiEnv) (handle : Option Unit) (path : CStrArg)
          (et ec ea : Nat) (s2 : LibState) (r : FFIResult) (s3 : LibState) (m : String),
        minidump_writer_ios_write_dump_with_exception env2 handle path et ec ea s2
          = CallOutcome.ret r s3 →
        r.error_message ≠ some (CMessage.ownedMsg m)) := by
  refine ⟨?_, ?_, ?_, ?_⟩
  · cases hp : parentDir p with
    | none => simp [minidump_writer_ios_write_dump, hp, hwriter, cstring_new_append_nul]
    | some parent =>
      cases hex : ffiDirExists env s parent with
      | true =>
        simp [minidump_writer_ios_write_dump, hp, hex, hwriter, cstring_new_append_nul]
      | false =>
        rcases hparent parent hp with h | h
        · rw [hex] at h; exact absurd h (by decide)
        · simp [minidump_writer_ios_write_dump, hp, hex, h, hwriter, cstring_new_append_nul]
  · simp [minidump_writer_ios_write_dump_with_exception, hwriter, cstring_new_append_nul]
  · intro env2 handle path s2 r s3 m h
    match handle, path with
    | none, _ =>
      rw [minidump_writer_ios_write_dump] at h
      cases h
      simp
    | some _, CStrArg.nullPtr =>
      rw [minidump_writer_ios_write_dump] at h
      cases h
      simp
    | some _, CStrArg.invalidUtf8 =>
      rw [minidump_writer_ios_write_dump] at h
      cases h
      simp
    | some _, CStrArg.text p2 =>
      rw [minidump_writer_ios_write_dump] at h
      simp only [cstring_new_append_nul] at h
      split at h
      · cases h
        simp
      · split at h
        · cases h
          simp
        · cases h
  · intro env2 handle path et ec ea s2 r s3 m h
    match handle, path with
    | none, _ =>
      rw [minidump_writer_ios_write_dump_with_exception] at h
      cases h
      simp
    | some _, CStrArg.nullPtr =>
      rw [minidump_writer_ios_write_dump_with_exception] at h
      cases h
      simp
    | some _, CStrArg.invalidUtf8 =>
      rw [minidump_writer_ios_write_dump_with_exception] at h
      cases h
      simp
    | some _, CStrArg.text p2 =>
      rw [minidump_writer_ios_write_dump_with_exception] at h
      simp only [cstring_new_append_nul] at h
      split at h
      · cases h
        simp
      · cases h

/-- Witness for the amended C6: the delegate fails on a concrete path whose
parent exists; both write operations panic instead of returning an owned
message, and the no-owned-message facts hold at a concrete returned call. -/
theorem C6_witness :
    minidump_writer_ios_write_dump ffiWriterFail (some ())
        (CStrArg.text "out/crash.dmp") initialLibState
      = CallOutcome.panicked
    ∧ minidump_writer_ios_write_dump_with_exception ffiWriterFail (some ())
        (CStrArg.text "out/crash.dmp") 0 0 0 initialLibState
      = CallOutcome.panicked :=
  ⟨(C6_no_owned_message_on_processing_failure ffiWriterFail initialLibState "out/crash.dmp"
      rfl (fun _ _ => Or.inl rfl)).1,
   (C6_no_owned_message_on_processing_failure ffiWriterFail initialLibState "out/crash.dmp"
      rfl (fun _ _ => Or.inl rfl)).2.1⟩

/-- C7 counterexample: the handler crate's fault triggers carry no build
gate, so invoking one with the build flag false (a release build) terminates
the process via its signal instead of returning an unavailable outcome. -/
theorem C7_counterexample :
    crash_triggers.trigger_abort false = TriggerOutcome.terminated SIGABRT
    ∧ crash_triggers.trigger false Arch.aarch64 1000 CrashType.segfault
      = TriggerOutcome.terminated SIGSEGV :=
  ⟨rfl, rfl⟩

/-- C7 (amended): only the Flutter-bridge operation trigger_crash is
debug-gated — in release builds it returns the unavailable error and reaches
no trigger, and in debug builds it dispatches unconditionally — while the
handler crate's fault-trigger operations carry no build gate at all: the
segfault, bus-error, abort and illegal-instruction triggers terminate the
process in every build; the divide-by-zero trigger terminates only on
x86_64, returning normally on aarch64 where sdiv does not trap; and the
stack-overflow trigger returns normally in every build because its recursion
guard fails immediately on the initial argument 0. -/
theorem C7_debug_gating_only_in_bridge (ct : CrashType) (b : Bool)
    (arch : Arch) (frames : Nat) :
    MinidumpApi.trigger_crash false arch frames ct
      = Except.error "Crash triggers are only available in debug builds"
    ∧ MinidumpApi.trigger_crash true arch frames ct
      = Except.ok (crash_triggers.trigger true arch frames ct)
    ∧ MinidumpApi.has_crash_triggers b = b
    ∧ crash_triggers.trigger_segfault b = TriggerOutcome.terminated SIGSEGV
    ∧ crash_triggers.trigger_bus_error b = TriggerOutcome.terminated SIGBUS
    ∧ crash_triggers.trigger_abort b = TriggerOutcome.terminated SIGABRT
    ∧ crash_triggers.trigger_illegal_instruction b = TriggerOutcome.terminated SIGILL
    ∧ crash_triggers.trigger_divide_by_zero b Arch.x86_64 = TriggerOutcome.terminated SIGFPE
    ∧ crash_triggers.trigger_divide_by_zero b Arch.aarch64 = TriggerOutcome.returnedNormally
    ∧ (1 ≤ frames →
        crash_triggers.trigger_stack_overflow b frames = TriggerOutcome.returnedNormally) := by
  refine ⟨rfl, rfl, rfl, rfl, rfl, rfl, rfl, rfl, rfl, ?_⟩
  intro hf
  obtain ⟨f, rfl⟩ : ∃ f, frames = f + 1 := ⟨frames - 1, (Nat.succ_pred_eq_of_pos hf).symm⟩
  rfl

/-- Witness for the amended C7: in a release build the bridge refuses, while
the handler crate's stack-overflow trigger, invoked with a thousand available
frames, returns normally without terminating anything. -/
theorem C7_witness :
    MinidumpApi.trigger_crash false Arch.aarch64 1000 CrashType.stackOverflow
      = Except.error "Crash triggers are only available in debug builds"
    ∧ crash_triggers.trigger_stack_overflow false 1000 = TriggerOutcome.returnedNormally :=
  ⟨(C7_debug_gating_only_in_bridge CrashType.stackOverflow false Arch.aarch64 1000).1,
   (C7_debug_gating_only_in_bridge CrashType.stackOverflow false Arch.aarch64 1000).2.2.2.2.2.2.2.2.2
     (by decide)⟩

/-- C8: the installer walks the fixed signal list in order, registering the
trampoline with SA_SIGINFO for each; when every sigaction succeeds all six
are registered in order, and when sigaction fails at some signal the
operation stops there with an error, keeping the registrations already made
(no rollback). -/
theorem C8_installer_fail_fast_no_rollback (env : Env) (s : HandlerState) :
    ((∀ sig ∈ handledSignals, env.sigaction_ok sig = true) →
      install_signal_handlers env s
        = (Except.ok (),
           { s with registrations :=
               s.registrations ++ handledSignals.map (fun t => (t, SA_SIGINFO)) }))
    ∧ (∀ pre sig post, handledSignals = pre ++ sig :: post →
        (∀ t ∈ pre, env.sigaction_ok t = true) →
        env.sigaction_ok sig = false →
        install_signal_handlers env s
          = (Except.error (InitError.signalInstallFailed sig),
             { s with registrations :=
                 s.registrations ++ pre.map (fun t => (t, SA_SIGINFO)) })) := by
  constructor
  · intro h
    exact registerSignals_ok_of_all env handledSignals s h
  · intro pre sig post heq hpre hsig
    rw [install_signal_handlers, heq]
    exact registerSignals_stops_at_failure env pre sig post s hpre hsig

/-- Witness for C8: all-success registration of the six signals in order, and
an environment failing at SIGABRT that leaves exactly SIGSEGV and SIGBUS
registered. -/
theorem C8_witness :
    install_signal_handlers envAllOk initialHandlerState
      = (Except.ok (),
         { handler_config := none, created_dirs := [],
           registrations :=
             [(SIGSEGV, SA_SIGINFO), (SIGBUS, SA_SIGINFO), (SIGABRT, SA_SIGINFO),
              (SIGFPE, SA_SIGINFO), (SIGILL, SA_SIGINFO), (SIGTRAP, SA_SIGINFO)] })
    ∧ install_signal_handlers envFailAbort initialHandlerState
      = (Except.error (InitError.signalInstallFailed SIGABRT),
         { handler_config := none, created_dirs := [],
           registrations := [(SIGSEGV, SA_SIGINFO), (SIGBUS, SA_SIGINFO)] }) :=
  ⟨((C8_installer_fail_fast_no_rollback envAllOk initialHandlerState).1
      (by decide)).trans rfl,
   ((C8_installer_fail_fast_no_rollback envFailAbort initialHandlerState).2
      [SIGSEGV, SIGBUS] SIGABRT [SIGFPE, SIGILL, SIGTRAP] rfl (by decide) (by decide)).trans rfl⟩

/-- C9: both release operations are null-tolerant no-ops: called with a null
pointer they deallocate nothing, change no state, and return normally. -/
theorem C9_release_ops_null_tolerant (handles allocs : List Nat) :
    minidump_writer_ios_free none handles = handles
    ∧ minidump_writer_ios_free_error_message none allocs = allocs :=
  ⟨rfl, rfl⟩

/-- C10: the path-based install operation is not single-assignment: every
call with a valid path succeeds when signal registration succeeds, and each
call overwrites the process-wide stored dump directory with its path — a
second installation is not rejected. -/
theorem C10_path_install_overwrites
    (env : FfiEnv) (s : LibState) (p1 p2 : String)
    (hsig : ∀ sig ∈ handledSignals, env.sigaction_ok sig = true) :
    (minidump_writer_ios_install_handlers env (CStrArg.text p1) s).fst
      = { success := true, error_message := none }
    ∧ ((minidump_writer_ios_install_handlers env (CStrArg.text p1) s).snd).crash_dump_path
      = some p1
    ∧ (minidump_writer_ios_install_handlers env (CStrArg.text p2)
        (minidump_writer_ios_install_handlers env (CStrArg.text p1) s).snd).fst
      = { success := true, error_message := none }
    ∧ ((minidump_writer_ios_install_handlers env (CStrArg.text p2)
        (minidump_writer_ios_install_handlers env (CStrArg.text p1) s).snd).snd).crash_dump_path
      = some p2 := by
  have h1 := rustlibRegisterSignals_ok_of_all env handledSignals
    { s with crash_dump_path := some p1 } hsig
  refine ⟨?_, ?_, ?_, ?_⟩ <;>
    simp [minidump_writer_ios_install_handlers, h1,
      rustlibRegisterSignals_ok_of_all env handledSignals _ hsig]

/-- Witness for C10: two successive installs with distinct paths both
succeed, and the stored path ends up being the second one. -/
theorem C10_witness :
    (minidump_writer_ios_install_handlers ffiAllOk (CStrArg.text "dumps1") initialLibState).fst
      = { success := true, error_message := none }
    ∧ ((minidump_writer_ios_install_handlers ffiAllOk (CStrArg.text "dumps1") initialLibState).snd).crash_dump_path
      = some "dumps1"
    ∧ (minidump_writer_ios_install_handlers ffiAllOk (CStrArg.text "dumps2")
        (minidump_writer_ios_install_handlers ffiAllOk (CStrArg.text "dumps1") initialLibState).snd).fst
      = { success := true, error_message := none }
    ∧ ((minidump_writer_ios_install_handlers ffiAllOk (CStrArg.text "dumps2")
        (minidump_writer_ios_install_handlers ffiAllOk (CStrArg.text "dumps1") initialLibState).snd).snd).crash_dump_path
      = some "dumps2" :=
  C10_path_install_overwrites ffiAllOk initialLibState "dumps1" "dumps2" (by decide)

end MinidumpVerify
